import Mathlib

/-
  Verification development for the package-tracker repository.

  The visible source is src/main.py, the Flask web layer: the login_required
  decorator and the route handlers packageList, viewPackage, logout,
  confirmUserEmail and resendEmail.  These are embedded shallowly below: a
  request handler is a pure function from the session (and the request data)
  to a HandlerResult recording the flash messages emitted, the calls made into
  the package core and the authenticator, the session after the request, and
  the response value (None, a redirect, or a rendered template).

  The package core itself (packages.py: PackageHandler, the tracking store and
  the refresh coordinator) and the authenticator (auth.py) are not part of the
  visible source; where a claim is decided by them they are modelled from the
  spec, and the handlers treat them as oracles passed in as function arguments.
-/

set_option autoImplicit false

namespace PackageTracker

/-- The session dictionary of the web layer.  The only key main.py ever reads
or writes is "userID"; `none` models the key being absent. -/
structure Session where
  userID : Option Int
deriving DecidableEq

/-- The login check of the login_required decorator (main.py line 30):
`"userID" in session and session["userID"] > 0`. -/
def Session.isLoggedIn (s : Session) : Bool :=
  match s.userID with
  | some uid => decide (0 < uid)
  | none => false

/-- Direct dictionary access `session["userID"]`, as done inside the guarded
handler bodies (main.py lines 102, 112, 118). -/
def sessionUserID (s : Session) : Int :=
  s.userID.getD 0

/-- Python truthiness of a value that is either False / None (modelled `none`)
or an integer: `none` and `some 0` are falsy. -/
def pyTruthy : Option Int → Bool
  | none => false
  | some v => v != 0

/-- Modelled from the spec: the canonical stage of a status event (§3,
StatusEvent); the packages module holding the normalizer is not under src. -/
inductive Stage where
  | created
  | inTransit
  | outForDelivery
  | delivered
  | exception
  | unknownStage
deriving DecidableEq

/-- Modelled from the spec: a normalized status event (§3); the packages
module is not under src.  An unknown timestamp is an explicit `none`. -/
structure StatusEvent where
  timestamp : Option String
  location : String
  description : String
  stage : Stage
deriving DecidableEq

/-- Modelled from the spec: the carrier variant (§3); the packages module is
not under src. -/
inductive Carrier where
  | carrierA
  | carrierB
  | unknownCarrier
deriving DecidableEq

/-- Opaque package view data as handed to the templates by main.py. -/
structure PackageData where
  rows : List (List String)
deriving DecidableEq

/-- A response value produced by a handler: a redirect to a named endpoint or
a rendered template (carrying whatever package data was passed to it). -/
inductive Response where
  | redirect (endpoint : String)
  | render (template : String) (data : List PackageData)
deriving DecidableEq

/-- A call from the web layer into the package core (the PackageHandler
facade), with the arguments it was given. -/
inductive CoreCall where
  | createNewPackage (trackingCode : String) (userID : Int)
  | getListOfPackages (userID : Int)
  | getPackageData (packageID : Int) (userID : Int)
deriving DecidableEq

/-- The userID argument that was explicitly passed in a core call. -/
def CoreCall.uid : CoreCall → Int
  | CoreCall.createNewPackage _ u => u
  | CoreCall.getListOfPackages u => u
  | CoreCall.getPackageData _ u => u

/-- A call from the web layer into the authenticator. -/
inductive AuthCall where
  | createNewUser (token : String)
  | sendEmailVerificationEmail (email : String)
deriving DecidableEq

/-- Everything observable about one handled request: flash messages emitted,
calls into the package core and the authenticator, the session state after the
request, and the response (`none` when the Python handler returns None). -/
structure HandlerResult where
  flashes : List (String × String)
  coreCalls : List CoreCall
  authCalls : List AuthCall
  sessionAfter : Session
  response : Option Response
deriving DecidableEq

/-- The result produced by the login_required decorator when the session is
not logged in (main.py lines 32-34): flash a warning and redirect to login,
without invoking the wrapped handler. -/
def loginRedirectResult (s : Session) : HandlerResult :=
  { flashes := [("You need to log in to do that!", "danger")]
    coreCalls := []
    authCalls := []
    sessionAfter := s
    response := some (Response.redirect "login") }

/-- The login_required decorator (main.py lines 27-37): run the wrapped
handler when `"userID" in session and session["userID"] > 0`, otherwise flash
and redirect to the login page. -/
def login_required (func : Session → HandlerResult) (s : Session) : HandlerResult :=
  if s.isLoggedIn then func s else loginRedirectResult s

/-- The package core as seen from the web layer: the three PackageHandler
methods main.py invokes.  packages.py is not under src, so these are oracles. -/
structure PackageHandlerAPI where
  createNewPackage : String → Int → Bool
  getListOfPackages : Int → List PackageData
  getPackageData : Int → Int → Option PackageData

/-- The body of the packageList handler (main.py lines 98-113).
`formSubmitted` models `form.validate_on_submit()`: a validated POST of the
add-package form carrying `trackingCode`. -/
def packageList_body (api : PackageHandlerAPI) (formSubmitted : Bool)
    (trackingCode : String) (s : Session) : HandlerResult :=
  if formSubmitted then
    if api.createNewPackage trackingCode (sessionUserID s) then
      { flashes := [("Package added successfully!", "success")]
        coreCalls := [CoreCall.createNewPackage trackingCode (sessionUserID s)]
        authCalls := []
        sessionAfter := s
        response := some (Response.redirect "packageList") }
    else
      { flashes := [("You have already added that package!", "warning")]
        coreCalls := [CoreCall.createNewPackage trackingCode (sessionUserID s)]
        authCalls := []
        sessionAfter := s
        response := some (Response.redirect "packageList") }
  else
    { flashes := []
      coreCalls := [CoreCall.getListOfPackages (sessionUserID s)]
      authCalls := []
      sessionAfter := s
      response := some (Response.render "packageList.html"
        (api.getListOfPackages (sessionUserID s))) }

/-- The packageList route (main.py lines 96-113), wrapped in login_required. -/
def packageList (api : PackageHandlerAPI) (formSubmitted : Bool)
    (trackingCode : String) : Session → HandlerResult :=
  login_required (packageList_body api formSubmitted trackingCode)

/-- The body of the viewPackage handler (main.py lines 117-127): fetch the
package data for this user; a falsy result flashes and redirects back to the
package list, otherwise the data is rendered. -/
def viewPackage_body (api : PackageHandlerAPI) (packageID : Int)
    (s : Session) : HandlerResult :=
  match api.getPackageData packageID (sessionUserID s) with
  | none =>
    { flashes := [("You are not tracking that package. Add it!", "primary")]
      coreCalls := [CoreCall.getPackageData packageID (sessionUserID s)]
      authCalls := []
      sessionAfter := s
      response := some (Response.redirect "packageList") }
  | some pd =>
    { flashes := []
      coreCalls := [CoreCall.getPackageData packageID (sessionUserID s)]
      authCalls := []
      sessionAfter := s
      response := some (Response.render "packageData.html" [pd]) }

/-- The viewPackage route (main.py lines 115-127), wrapped in login_required. -/
def viewPackage (api : PackageHandlerAPI) (packageID : Int) :
    Session → HandlerResult :=
  login_required (viewPackage_body api packageID)

/-- The body of the logout handler (main.py lines 66-70): zero the userID,
clear the session, flash, redirect to login. -/
def logout_body (_s : Session) : HandlerResult :=
  { flashes := [("You have been logged out!", "primary")]
    coreCalls := []
    authCalls := []
    sessionAfter := { userID := none }
    response := some (Response.redirect "login") }

/-- The logout route (main.py lines 64-70), wrapped in login_required. -/
def logout : Session → HandlerResult :=
  login_required logout_body

/-- The confirmUserEmail route (main.py lines 129-142).  `createNewUser` is
the authenticator oracle: it returns False (modelled `none`) on failure,
otherwise the ID of the new user. -/
def confirmUserEmail (createNewUser : String → Option Int) (token : String)
    (s : Session) : HandlerResult :=
  let userID := createNewUser token
  if pyTruthy userID then
    { flashes := [("Verification successful! You are now logged in.", "success")]
      coreCalls := []
      authCalls := [AuthCall.createNewUser token]
      sessionAfter := { userID := some (userID.getD 0) }
      response := some (Response.redirect "packageList") }
  else
    { flashes := [("This link is either invalid or has expired. Please re-register.", "warning")]
      coreCalls := []
      authCalls := [AuthCall.createNewUser token]
      sessionAfter := s
      response := some (Response.redirect "register") }

/-- The resendEmail route (main.py lines 146-155).  resendType 1 is email
verification; resendType 2 ("password reset") is an unfinished stub whose
branch body is `pass`, so the Python function returns None and performs no
action (also for any other resendType, which falls off the end). -/
def resendEmail (sendEmailVerificationEmail : String → Bool) (resendType : Int)
    (email : String) (s : Session) : HandlerResult :=
  if resendType = 1 then
    if sendEmailVerificationEmail email then
      { flashes := []
        coreCalls := []
        authCalls := [AuthCall.sendEmailVerificationEmail email]
        sessionAfter := s
        response := some (Response.render "verifyYourEmail.html" []) }
    else
      { flashes := [("Something went wrong and we couldn\x27t resend the email. You may need to re-register.", "danger")]
        coreCalls := []
        authCalls := [AuthCall.sendEmailVerificationEmail email]
        sessionAfter := s
        response := some (Response.render "verifyYourEmail.html" []) }
  else
    { flashes := []
      coreCalls := []
      authCalls := []
      sessionAfter := s
      response := none }

/-- Modelled from the spec: the refresh state of a package (§4.5); the
packages module holding the refresh coordinator is not under src. -/
inductive FailKind where
  | timeout
  | notFoundCode
  | carrierUnavailable
  | parseTarget
deriving DecidableEq

/-- Modelled from the spec: the per-package refresh state machine states of
§4.5 (Fresh, Stale, Refreshing, Failed(kind)). -/
inductive RState where
  | fresh
  | stale
  | refreshing
  | failed (k : FailKind)
deriving DecidableEq

/-- Modelled from the spec: a Package row of the tracking store (§3, §6):
identity (trackingCode, carrier), the shared timeline, refresh state. -/
structure Package where
  id : Nat
  trackingCode : String
  carrier : Carrier
  timeline : List StatusEvent
  refreshState : RState
deriving DecidableEq

/-- Modelled from the spec: the tracking store tables of §6:
packages(id, trackingCode, carrier, timeline, refreshState) and
subscriptions(packageID, userID). -/
structure Store where
  packages : List Package
  subscriptions : List (Nat × Int)
  nextID : Nat
deriving DecidableEq

/-- Modelled from the spec: the carrier classifier of §4.1 (packages module
not under src): deterministic pattern rules over the code, falling back to
Unknown. -/
def classify (code : String) : Carrier :=
  if code.startsWith "1Z" && code.length == 18 then Carrier.carrierA
  else if code.length == 13 then Carrier.carrierB
  else Carrier.unknownCarrier

/-- Lookup of a package by its (trackingCode, carrier) identity in the store. -/
def findPackage (ps : List Package) (code : String) (carrier : Carrier) :
    Option Package :=
  match ps with
  | [] => none
  | p :: rest =>
    if p.trackingCode = code ∧ p.carrier = carrier then some p
    else findPackage rest code carrier

/-- Modelled from the spec: `findOrCreatePackage(code, carrier) -> Package`
of §4.4 (packages module not under src): idempotent, returns the existing
Package when (code, carrier) is already present, otherwise creates one with
an empty timeline. -/
def findOrCreatePackage (st : Store) (code : String) (carrier : Carrier) :
    Package × Store :=
  match findPackage st.packages code carrier with
  | some p => (p, st)
  | none =>
    let p : Package :=
      { id := st.nextID, trackingCode := code, carrier := carrier
        timeline := [], refreshState := RState.stale }
    (p, { st with packages := p :: st.packages, nextID := st.nextID + 1 })

/-- Modelled from the spec: the outcome of `addSubscription` (§4.4). -/
inductive SubResult where
  | created
  | alreadyExists
deriving DecidableEq

/-- Modelled from the spec: `addSubscription(package, userID)` of §4.4
(packages module not under src): never creates a duplicate subscription and
reports which outcome occurred. -/
def addSubscription (st : Store) (pid : Nat) (uid : Int) : SubResult × Store :=
  if (pid, uid) ∈ st.subscriptions then (SubResult.alreadyExists, st)
  else (SubResult.created, { st with subscriptions := (pid, uid) :: st.subscriptions })

/-- Lookup of a package by its row id in the store. -/
def findPackageByID (ps : List Package) (pid : Nat) : Option Package :=
  match ps with
  | [] => none
  | p :: rest => if p.id = pid then some p else findPackageByID rest pid

/-- Modelled from the spec: `getPackageForUser(packageID, userID)` of §4.4
(packages module not under src): absence, not a distinguishable error, when
no subscription links this user to this package. -/
def getPackageForUser (st : Store) (packageID : Nat) (userID : Int) :
    Option Package :=
  if (packageID, userID) ∈ st.subscriptions then
    findPackageByID st.packages packageID
  else none

/-- Modelled from the spec: the facade `addPackage(code, userID)` of §4.6
(packages module not under src): classify, findOrCreatePackage, then
addSubscription; `true` means Added, `false` means AlreadyTracked. -/
def addPackageCore (st : Store) (code : String) (userID : Int) : Bool × Store :=
  let r := findOrCreatePackage st code (classify code)
  let r2 := addSubscription r.2 r.1.id userID
  ((match r2.1 with
    | SubResult.created => true
    | SubResult.alreadyExists => false), r2.2)

/-- Modelled from the spec: the outcome of one fetch+normalize attempt: a new
timeline, or a ScrapeError / ParseError kind (§4.2, §4.3, §4.5). -/
inductive RefreshOutcome where
  | ok (timeline : List StatusEvent)
  | failed (k : FailKind)
deriving DecidableEq

/-- Modelled from the spec: how a refresh outcome is written back to a
package by the refresh coordinator (§4.5): success replaces the timeline and
becomes Fresh; any failure records Failed(kind) and leaves the stored
timeline untouched. -/
def applyRefreshOutcome (p : Package) (o : RefreshOutcome) : Package :=
  match o with
  | RefreshOutcome.ok tl => { p with timeline := tl, refreshState := RState.fresh }
  | RefreshOutcome.failed k => { p with refreshState := RState.failed k }

/-- Modelled from the spec: `getPackageDetail` serves the current stored
timeline regardless of refresh outcome (§4.6, §4.5: staleness is preferred
over emptiness). -/
def serveDetail (p : Package) : List StatusEvent :=
  p.timeline

/-- Modelled from the spec: an event at one package's refresh coordinator, in
a sequentialized interleaving: a caller triggering a refresh, an in-flight
scrape completing, or the staleness threshold expiring (§4.5, §5). -/
inductive CoordEvent where
  | trigger
  | complete (o : RefreshOutcome)
  | staleTimeout
deriving DecidableEq

/-- Modelled from the spec: the per-package coordinator state: the refresh
state machine state plus a count of underlying scrape calls launched. -/
structure CoordState where
  rstate : RState
  scrapeCalls : Nat
deriving DecidableEq

/-- Modelled from the spec: one step of the refresh coordinator state machine
of §4.5.  A trigger launches a scrape only from Stale; callers arriving while
Refreshing skip (single-flight), Fresh serves the cache, terminal failures
are not retried.  Completion moves Refreshing to Fresh or Failed(kind).  The
staleness threshold moves Fresh and the transient failures back to Stale. -/
def coordStep (s : CoordState) (e : CoordEvent) : CoordState :=
  match e with
  | CoordEvent.trigger =>
    match s.rstate with
    | RState.stale => { rstate := RState.refreshing, scrapeCalls := s.scrapeCalls + 1 }
    | _ => s
  | CoordEvent.complete o =>
    match s.rstate with
    | RState.refreshing =>
      match o with
      | RefreshOutcome.ok _ => { s with rstate := RState.fresh }
      | RefreshOutcome.failed k => { s with rstate := RState.failed k }
    | _ => s
  | CoordEvent.staleTimeout =>
    match s.rstate with
    | RState.fresh => { s with rstate := RState.stale }
    | RState.failed FailKind.timeout => { s with rstate := RState.stale }
    | RState.failed FailKind.carrierUnavailable => { s with rstate := RState.stale }
    | _ => s

/-- Running the coordinator over a sequence of events. -/
def coordRun (s : CoordState) (es : List CoordEvent) : CoordState :=
  es.foldl coordStep s

/-- A concrete oracle whose createNewPackage always reports success. -/
def apiAdded : PackageHandlerAPI :=
  { createNewPackage := fun _ _ => true
    getListOfPackages := fun _ => []
    getPackageData := fun _ _ => none }

/-- A concrete oracle whose createNewPackage reports an existing subscription
and whose getPackageData reports absence. -/
def apiAbsent : PackageHandlerAPI :=
  { createNewPackage := fun _ _ => false
    getListOfPackages := fun _ => []
    getPackageData := fun _ _ => none }

/-- The empty tracking store. -/
def emptyStore : Store :=
  { packages := [], subscriptions := [], nextID := 1 }

/-- A concrete package holding one stored status event. -/
def samplePackage : Package :=
  { id := 1
    trackingCode := "1Z999AA10123456784"
    carrier := Carrier.carrierA
    timeline := [{ timestamp := some "2024-01-01T10:00Z", location := "Origin"
                   description := "Picked up", stage := Stage.created }]
    refreshState := RState.fresh }

/-- A logged-in session is exactly one whose userID key holds a positive id. -/
theorem isLoggedIn_true_iff (s : Session) :
    s.isLoggedIn = true ↔ ∃ uid : Int, s.userID = some uid ∧ 0 < uid := by
  obtain ⟨su⟩ := s
  cases su <;> simp [Session.isLoggedIn]

/-- Reading session["userID"] inside a guarded body yields the stored id. -/
theorem sessionUserID_eq (s : Session) (uid : Int) (h : s.userID = some uid) :
    sessionUserID s = uid := by
  simp [sessionUserID, h]

/-- Within a staleness window (no staleTimeout event), a coordinator step
from a non-Stale state stays non-Stale and launches no scrape. -/
theorem coordStep_preserves (s : CoordState) (e : CoordEvent)
    (he : e ≠ CoordEvent.staleTimeout) (hs : s.rstate ≠ RState.stale) :
    (coordStep s e).rstate ≠ RState.stale ∧
      (coordStep s e).scrapeCalls = s.scrapeCalls := by
  obtain ⟨rs, sc⟩ := s
  cases e with
  | trigger => cases rs <;> simp_all [coordStep]
  | complete o =>
    cases rs with
    | fresh => simp [coordStep]
    | stale => simp at hs
    | refreshing => cases o <;> simp [coordStep]
    | failed k => simp [coordStep]
  | staleTimeout => exact absurd rfl he

/-- Within a staleness window, a run starting from a non-Stale state launches
no scrape at all. -/
theorem coordRun_no_stale (es : List CoordEvent) :
    ∀ s : CoordState, (∀ e ∈ es, e ≠ CoordEvent.staleTimeout) →
      s.rstate ≠ RState.stale →
      (coordRun s es).scrapeCalls = s.scrapeCalls := by
  induction es with
  | nil => intro s _ _; rfl
  | cons e rest ih =>
    intro s hes hs
    have he : e ≠ CoordEvent.staleTimeout := hes e (List.mem_cons_self e rest)
    obtain ⟨h1, h2⟩ := coordStep_preserves s e he hs
    have h3 := ih (coordStep s e) (fun x hx => hes x (List.mem_cons_of_mem e hx)) h1
    calc (coordRun s (e :: rest)).scrapeCalls
        = (coordRun (coordStep s e) rest).scrapeCalls := rfl
      _ = (coordStep s e).scrapeCalls := h3
      _ = s.scrapeCalls := h2

/-- The store found or created by findOrCreatePackage is found again by a
second lookup of the same (code, carrier) identity. -/
theorem findOrCreatePackage_found (st : Store) (code : String) (c : Carrier) :
    findPackage (findOrCreatePackage st code c).2.packages code c
      = some (findOrCreatePackage st code c).1 := by
  cases h : findPackage st.packages code c with
  | some p => simp [findOrCreatePackage, h]
  | none => simp [findOrCreatePackage, h, findPackage]

/-- findOrCreatePackage applied to its own result store is the identity. -/
theorem findOrCreatePackage_idem (st : Store) (code : String) (c : Carrier) :
    findOrCreatePackage (findOrCreatePackage st code c).2 code c
      = ((findOrCreatePackage st code c).1, (findOrCreatePackage st code c).2) := by
  rw [findOrCreatePackage.eq_def]
  rw [findOrCreatePackage_found st code c]

/-- C1: for every tracking code and logged-in user, a package-add request
succeeds exactly when PackageHandler.createNewPackage(trackingCode, userID)
returns true, and the user is then told "Package added successfully!"; when
it returns false the request is reported as "You have already added that
package!" — re-registration of an already-tracked package is reported as
already tracked, never a silent duplicate. -/
theorem c1_add_package_reporting (api : PackageHandlerAPI) (tc : String)
    (s : Session) (hs : s.isLoggedIn = true) :
    ((packageList api true tc s).flashes
        = [("Package added successfully!", "success")]
      ↔ api.createNewPackage tc (sessionUserID s) = true) ∧
    (api.createNewPackage tc (sessionUserID s) = false →
      (packageList api true tc s).flashes
        = [("You have already added that package!", "warning")]) := by
  cases hcr : api.createNewPackage tc (sessionUserID s) <;>
    simp [packageList, login_required, hs, packageList_body, hcr]

/-- Witness for C1 at a concrete oracle and session. -/
theorem c1_add_package_reporting_witness :
    (packageList apiAdded true "1Z999AA10123456784" { userID := some 1 }).flashes
      = [("Package added successfully!", "success")] :=
  (c1_add_package_reporting apiAdded "1Z999AA10123456784" { userID := some 1 }
    (by decide)).1.mpr rfl

/-- C2: when no subscription links the user to the package, the
package-detail operation returns an absent value (not a distinguishable
not-authorized error), and the viewPackage handler responds with a redirect
to the package list instead of rendering any package data. -/
theorem c2_not_authorized_opaque (api : PackageHandlerAPI) (pid : Int)
    (s : Session) (st : Store) (pidN : Nat) (uidN : Int)
    (hs : s.isLoggedIn = true)
    (hnone : api.getPackageData pid (sessionUserID s) = none)
    (hnosub : (pidN, uidN) ∉ st.subscriptions) :
    getPackageForUser st pidN uidN = none ∧
    (viewPackage api pid s).response = some (Response.redirect "packageList") ∧
    (viewPackage api pid s).flashes
      = [("You are not tracking that package. Add it!", "primary")] := by
  refine ⟨?_, ?_, ?_⟩
  · simp [getPackageForUser, hnosub]
  · simp [viewPackage, login_required, hs, viewPackage_body, hnone]
  · simp [viewPackage, login_required, hs, viewPackage_body, hnone]

/-- Witness for C2 at a concrete oracle, store and session. -/
theorem c2_not_authorized_opaque_witness :
    getPackageForUser emptyStore 1 1 = none ∧
    (viewPackage apiAbsent 1 { userID := some 1 }).response
      = some (Response.redirect "packageList") ∧
    (viewPackage apiAbsent 1 { userID := some 1 }).flashes
      = [("You are not tracking that package. Add it!", "primary")] :=
  c2_not_authorized_opaque apiAbsent 1 { userID := some 1 } emptyStore 1 1
    (by decide) rfl (by decide)

/-- C3: for equal tracking codes with the same carrier, findOrCreatePackage
returns the same Package identity (idempotence): a Package is created at most
once per (code, carrier), and a later registration of the same code (by any
user) attaches a Subscription to the existing Package instead of creating a
second Package. -/
theorem c3_findOrCreate_idempotent (st : Store) (code : String) :
    (findOrCreatePackage (findOrCreatePackage st code (classify code)).2 code (classify code)
      = ((findOrCreatePackage st code (classify code)).1,
         (findOrCreatePackage st code (classify code)).2)) ∧
    ∀ uid : Int,
      (addPackageCore (findOrCreatePackage st code (classify code)).2 code uid).2.packages
        = (findOrCreatePackage st code (classify code)).2.packages ∧
      ((findOrCreatePackage st code (classify code)).1.id, uid) ∈
        (addPackageCore (findOrCreatePackage st code (classify code)).2 code uid).2.subscriptions := by
  have hid := findOrCreatePackage_idem st code (classify code)
  refine ⟨hid, fun uid => ?_⟩
  by_cases hmem : ((findOrCreatePackage st code (classify code)).1.id, uid)
      ∈ (findOrCreatePackage st code (classify code)).2.subscriptions
  · constructor <;> simp [addPackageCore, hid, addSubscription, hmem]
  · constructor <;> simp [addPackageCore, hid, addSubscription, hmem]

/-- C4: a failed refresh (any ScrapeError or ParseError kind) leaves a
previously stored non-empty Timeline unchanged, and subsequent detail views
still serve that stale Timeline. -/
theorem c4_failed_refresh_preserves_timeline (p : Package) (k : FailKind)
    (_h : p.timeline ≠ []) :
    (applyRefreshOutcome p (RefreshOutcome.failed k)).timeline = p.timeline ∧
    serveDetail (applyRefreshOutcome p (RefreshOutcome.failed k)) = p.timeline := by
  simp [applyRefreshOutcome, serveDetail]

/-- Witness for C4 at a concrete package with a stored event. -/
theorem c4_failed_refresh_preserves_timeline_witness :
    (applyRefreshOutcome samplePackage (RefreshOutcome.failed FailKind.timeout)).timeline
      = samplePackage.timeline ∧
    serveDetail (applyRefreshOutcome samplePackage (RefreshOutcome.failed FailKind.timeout))
      = samplePackage.timeline :=
  c4_failed_refresh_preserves_timeline samplePackage FailKind.timeout (by decide)

/-- C5: within one staleness window (no staleTimeout event), any number of
refresh triggers for the same package — interleaved with completions — make
at most one underlying scrape call: the coordinator keeps at most one
in-flight scrape per package. -/
theorem c5_single_flight (s0 : CoordState) (es : List CoordEvent)
    (hwin : ∀ e ∈ es, e ≠ CoordEvent.staleTimeout) :
    (coordRun s0 es).scrapeCalls ≤ s0.scrapeCalls + 1 := by
  revert hwin
  induction es generalizing s0 with
  | nil => intro _; exact Nat.le_succ _
  | cons e rest ih =>
    intro hwin
    have he : e ≠ CoordEvent.staleTimeout := hwin e (List.mem_cons_self e rest)
    have hrest : ∀ x ∈ rest, x ≠ CoordEvent.staleTimeout :=
      fun x hx => hwin x (List.mem_cons_of_mem e hx)
    obtain ⟨rs, sc⟩ := s0
    by_cases hs : rs = RState.stale
    · subst hs
      cases e with
      | trigger =>
        have h1 : coordRun ⟨RState.stale, sc⟩ (CoordEvent.trigger :: rest)
            = coordRun ⟨RState.refreshing, sc + 1⟩ rest := rfl
        rw [h1, coordRun_no_stale rest ⟨RState.refreshing, sc + 1⟩ hrest (by simp)]
      | complete o =>
        have h1 : coordRun ⟨RState.stale, sc⟩ (CoordEvent.complete o :: rest)
            = coordRun ⟨RState.stale, sc⟩ rest := rfl
        rw [h1]
        exact ih ⟨RState.stale, sc⟩ hrest
      | staleTimeout => exact absurd rfl he
    · rw [coordRun_no_stale (e :: rest) ⟨rs, sc⟩ hwin hs]
      exact Nat.le_succ sc

/-- Witness for C5: two concurrent triggers, a completion, and a third
trigger within the window yield a single scrape call. -/
theorem c5_single_flight_witness :
    (coordRun { rstate := RState.stale, scrapeCalls := 0 }
      [CoordEvent.trigger, CoordEvent.trigger,
       CoordEvent.complete (RefreshOutcome.ok []), CoordEvent.trigger]).scrapeCalls
      ≤ 0 + 1 :=
  c5_single_flight { rstate := RState.stale, scrapeCalls := 0 }
    [CoordEvent.trigger, CoordEvent.trigger,
     CoordEvent.complete (RefreshOutcome.ok []), CoordEvent.trigger]
    (by decide)

/-- C6: every call from the web layer into the package core carries the
session's userID as an explicit argument, and such calls happen only on
requests whose session holds a userID greater than zero. -/
theorem c6_explicit_identity (api : PackageHandlerAPI) (fs : Bool) (tc : String)
    (pid : Int) (s : Session) :
    (∀ c ∈ (packageList api fs tc s).coreCalls,
      ∃ uid : Int, s.userID = some uid ∧ 0 < uid ∧ c.uid = uid) ∧
    (∀ c ∈ (viewPackage api pid s).coreCalls,
      ∃ uid : Int, s.userID = some uid ∧ 0 < uid ∧ c.uid = uid) := by
  cases hb : s.isLoggedIn with
  | false =>
    constructor <;> intro c hc <;>
      simp [packageList, viewPackage, login_required, hb, loginRedirectResult] at hc
  | true =>
    obtain ⟨uid, huid, hpos⟩ := (isLoggedIn_true_iff s).1 hb
    have hsid : sessionUserID s = uid := sessionUserID_eq s uid huid
    constructor
    · intro c hc
      refine ⟨uid, huid, hpos, ?_⟩
      cases fs with
      | true =>
        cases hcr : api.createNewPackage tc (sessionUserID s) <;>
          simp [packageList, login_required, hb, packageList_body, hcr] at hc <;>
          simp [hc, CoreCall.uid, hsid]
      | false =>
        simp [packageList, login_required, hb, packageList_body] at hc
        simp [hc, CoreCall.uid, hsid]
    · intro c hc
      refine ⟨uid, huid, hpos, ?_⟩
      cases hg : api.getPackageData pid (sessionUserID s) <;>
        simp [viewPackage, login_required, hb, viewPackage_body, hg] at hc <;>
        simp [hc, CoreCall.uid, hsid]

/-- Witness for C6 at a concrete logged-in session and oracle. -/
theorem c6_explicit_identity_witness :
    ∃ uid : Int, (Session.mk (some 2)).userID = some uid ∧ 0 < uid ∧
      (CoreCall.getListOfPackages 2).uid = uid :=
  (c6_explicit_identity apiAbsent false "" 0 { userID := some 2 }).1
    (CoreCall.getListOfPackages 2) (by decide)

/-- C7: the password-reset resend path is an unfinished stub: for every email
string, resendEmail with resendType 2 performs no action (no authenticator
call, no flash, no session change) and produces no response value. -/
theorem c7_password_reset_stub (send : String → Bool) (email : String)
    (s : Session) :
    resendEmail send 2 email s =
      { flashes := [], coreCalls := [], authCalls := []
        sessionAfter := s, response := none } := rfl

/-- C8: for every request to a route decorated with login_required, if the
session has no userID key or its value is not greater than zero, the wrapped
handler body is never invoked and the response is a redirect to the login
page; when session["userID"] is greater than zero the wrapped handler runs
with its original arguments. -/
theorem c8_login_required_guard (s : Session) :
    ((¬ ∃ uid : Int, s.userID = some uid ∧ 0 < uid) →
      (∀ f : Session → HandlerResult, login_required f s = loginRedirectResult s) ∧
      (∀ api : PackageHandlerAPI, ∀ fs : Bool, ∀ tc : String,
        packageList api fs tc s = loginRedirectResult s) ∧
      (∀ api : PackageHandlerAPI, ∀ pid : Int,
        viewPackage api pid s = loginRedirectResult s) ∧
      logout s = loginRedirectResult s) ∧
    (∀ uid : Int, s.userID = some uid → 0 < uid →
      (∀ f : Session → HandlerResult, login_required f s = f s) ∧
      (∀ api : PackageHandlerAPI, ∀ fs : Bool, ∀ tc : String,
        packageList api fs tc s = packageList_body api fs tc s) ∧
      (∀ api : PackageHandlerAPI, ∀ pid : Int,
        viewPackage api pid s = viewPackage_body api pid s) ∧
      logout s = logout_body s) := by
  constructor
  · intro h
    have hb : s.isLoggedIn = false := by
      cases hb : s.isLoggedIn with
      | false => rfl
      | true => exact absurd ((isLoggedIn_true_iff s).1 hb) h
    refine ⟨fun f => ?_, fun api fs tc => ?_, fun api pid => ?_, ?_⟩ <;>
      simp [login_required, packageList, viewPackage, logout, hb]
  · intro uid huid hpos
    have hb : s.isLoggedIn = true := (isLoggedIn_true_iff s).2 ⟨uid, huid, hpos⟩
    refine ⟨fun f => ?_, fun api fs tc => ?_, fun api pid => ?_, ?_⟩ <;>
      simp [login_required, packageList, viewPackage, logout, hb]

/-- Witness for C8: an anonymous session is redirected to login, a logged-in
session reaches the wrapped body. -/
theorem c8_login_required_guard_witness :
    login_required logout_body { userID := none }
      = loginRedirectResult { userID := none } ∧
    login_required logout_body { userID := some 3 }
      = logout_body { userID := some 3 } :=
  ⟨((c8_login_required_guard { userID := none }).1 (by simp)).1 logout_body,
   ((c8_login_required_guard { userID := some 3 }).2 3 rfl (by decide)).1 logout_body⟩

/-- C9: confirmUserEmail either logs the user in or leaves the session
untouched: a truthy user id from createNewUser(token) is stored in
session["userID"] and the response redirects to the package list; a falsy
result leaves the session unmodified and redirects to registration. -/
theorem c9_confirm_email_session (cnu : String → Option Int) (token : String)
    (s : Session) :
    (∀ v : Int, cnu token = some v → v ≠ 0 →
      (confirmUserEmail cnu token s).sessionAfter = { userID := some v } ∧
      (confirmUserEmail cnu token s).response
        = some (Response.redirect "packageList")) ∧
    (pyTruthy (cnu token) = false →
      (confirmUserEmail cnu token s).sessionAfter = s ∧
      (confirmUserEmail cnu token s).response
        = some (Response.redirect "register")) := by
  constructor
  · intro v hv hv0
    constructor <;> simp [confirmUserEmail, hv, pyTruthy, hv0]
  · intro hfalse
    constructor <;> simp [confirmUserEmail, hfalse]

/-- Witness for C9 at a concrete authenticator oracle. -/
theorem c9_confirm_email_session_witness :
    (confirmUserEmail (fun _ => some 5) "tok" { userID := none }).sessionAfter
      = { userID := some 5 } ∧
    (confirmUserEmail (fun _ => some 5) "tok" { userID := none }).response
      = some (Response.redirect "packageList") :=
  (c9_confirm_email_session (fun _ => some 5) "tok" { userID := none }).1 5
    rfl (by decide)

/-- C10: resendEmail with resendType 1 returns the rendered verify-your-email
page whether or not sendEmailVerificationEmail succeeds; a failure changes
only the flashed warning, not which page is returned. -/
theorem c10_resend_verification_page (send : String → Bool) (email : String)
    (s : Session) :
    (resendEmail send 1 email s).response
      = some (Response.render "verifyYourEmail.html" []) ∧
    (send email = true → (resendEmail send 1 email s).flashes = []) ∧
    (send email = false → (resendEmail send 1 email s).flashes
      = [("Something went wrong and we couldn\x27t resend the email. You may need to re-register.", "danger")]) := by
  cases h : send email <;> simp [resendEmail, h]

/-- Witness for C10: a failing resend still renders the verify page and
flashes the warning. -/
theorem c10_resend_verification_page_witness :
    (resendEmail (fun _ => false) 1 "user" { userID := none }).response
      = some (Response.render "verifyYourEmail.html" []) ∧
    (resendEmail (fun _ => false) 1 "user" { userID := none }).flashes
      = [("Something went wrong and we couldn\x27t resend the email. You may need to re-register.", "danger")] := by
  have h := c10_resend_verification_page (fun _ => false) "user" { userID := none }
  exact ⟨h.1, h.2.2 rfl⟩

end PackageTracker
